import Mathlib

/-!
Verification of the evidence-aggregation, scoring, and decision subsystem of the
otp-agent drug-target triage pipeline.

The program's data model and pure logic (scorer, decision engine, failure
categorization, competitor-landscape aggregation, safety investigation merge,
and batch orchestration) are shallowly embedded below.  TypeScript numbers are
modelled as rationals (`ℚ`), optional/nullable fields as `Option`, and the
HTTP/persistence effects of the original functions become explicit parameters
(the fetched trial list, the per-signal investigation evidence, the per-gene
triage outcomes).  Free-text narrative outputs that no code path ever branches
on (`generateRecommendations`, `landscapeSummary`, `generateSummary`,
`executiveSummary`) are not modelled; every field and branch the theorems rely
on is translated directly from the source.
-/

namespace OtpAgent

/-- Does the character list `s` start with `pat`? -/
def startsWithChars : List Char → List Char → Bool
  | _, [] => true
  | [], _ :: _ => false
  | c :: cs, p :: ps => c = p && startsWithChars cs ps

/-- Does `pat` occur as a contiguous run anywhere in `s`? -/
def hasSubChars (pat : List Char) : List Char → Bool
  | [] => pat.isEmpty
  | c :: cs => startsWithChars (c :: cs) pat || hasSubChars pat cs

/-- JS `String.prototype.includes`: substring containment test. -/
def strIncludes (s pat : String) : Bool :=
  hasSubChars pat.toList s.toList

/-- JS `String.prototype.toLowerCase` (lower-case each character). -/
def toLowerStr (s : String) : String :=
  ⟨s.data.map Char.toLower⟩

/-- JS truthiness of an optional string (`undefined` and `""` are falsy). -/
def strTruthy : Option String → Bool
  | some s => s != ""
  | none => false

/-! ## Data model (convex/lib/types.ts) -/

/-- Verdict enum. -/
inductive Verdict
  | GO
  | GO_WITH_CAUTION
  | INVESTIGATE_FURTHER
  | NO_GO
deriving DecidableEq

/-- SafetySeverity enum, ordered CRITICAL > HIGH > MODERATE > LOW > INFORMATIONAL. -/
inductive SafetySeverity
  | CRITICAL
  | HIGH
  | MODERATE
  | LOW
  | INFORMATIONAL
deriving DecidableEq

/-- SafetyEvidenceType enum. -/
inductive SafetyEvidenceType
  | PAPER
  | COMPOUND
  | CLINICAL_TRIAL
  | REGULATORY
  | ANIMAL_MODEL
  | IN_VITRO
deriving DecidableEq

/-- TrialStatus enum. -/
inductive TrialStatus
  | RECRUITING
  | ACTIVE
  | COMPLETED
  | TERMINATED
  | WITHDRAWN
  | SUSPENDED
  | UNKNOWN
deriving DecidableEq

/-- TriageStatus enum. -/
inductive TriageStatus
  | PENDING
  | RUNNING
  | COMPLETED
  | FAILED
deriving DecidableEq

/-- FailureCategory enum. -/
inductive FailureCategory
  | safety
  | efficacy
  | business
  | other
deriving DecidableEq

/-- AssociationScore: overall plus seven sub-datatype scores. -/
structure AssociationScore where
  overallScore : ℚ
  geneticAssociation : ℚ
  somaticMutation : ℚ
  knownDrug : ℚ
  affectedPathway : ℚ
  literature : ℚ
  rnaExpression : ℚ
  animalModel : ℚ
deriving DecidableEq

/-- TractabilityModality: assessment flag plus supporting category buckets. -/
structure TractabilityModality where
  modality : String
  isAssessed : Bool
  topCategory : Option String
  buckets : List String
deriving DecidableEq

/-- Tractability: per-modality assessments, all optional. -/
structure Tractability where
  smallMolecule : Option TractabilityModality
  antibody : Option TractabilityModality
  protac : Option TractabilityModality
  otherModalities : Option (List TractabilityModality)
deriving DecidableEq

/-- SafetyEvidence item. -/
structure SafetyEvidence where
  type : SafetyEvidenceType
  source : String
  description : String
  url : Option String
  confidence : Option ℚ
deriving DecidableEq

/-- SafetySignal. -/
structure SafetySignal where
  signalType : String
  organSystem : Option String
  severity : SafetySeverity
  description : String
  evidence : List SafetyEvidence
  investigationSummary : Option String
deriving DecidableEq

/-- SafetyProfile returned by the safety investigator. -/
structure SafetyProfile where
  targetId : String
  signals : List SafetySignal
  overallRisk : SafetySeverity
  criticalSignalCount : ℕ
  highSignalCount : ℕ
  moderateSignalCount : ℕ
  lowSignalCount : ℕ
deriving DecidableEq

/-- ClinicalTrial record. -/
structure ClinicalTrial where
  trialId : String
  title : String
  phase : String
  status : TrialStatus
  sponsor : Option String
  startDate : Option String
  completionDate : Option String
  enrollment : Option ℚ
  failureReason : Option String
  url : Option String
deriving DecidableEq

/-- Failure-reason histogram. -/
structure FailureReasons where
  safety : ℕ
  efficacy : ℕ
  business : ℕ
  other : ℕ
deriving DecidableEq

/-- CompetitorLandscape aggregate (free-text `landscapeSummary` not modelled). -/
structure CompetitorLandscape where
  targetId : String
  diseaseId : String
  totalTrials : ℕ
  activeTrials : ℕ
  completedTrials : ℕ
  failedTrials : ℕ
  trials : List ClinicalTrial
  failureReasons : FailureReasons
  competitiveRiskScore : ℚ
deriving DecidableEq

/-- TargetScores: four components plus the derived composite. -/
structure TargetScores where
  geneticEvidence : ℚ
  tractability : ℚ
  safetyRisk : ℚ
  competitiveLandscape : ℚ
  compositeScore : ℚ
deriving DecidableEq

/-! ## Scoring constants (convex/lib/types.ts) -/

namespace SCORE_WEIGHTS

def geneticEvidence : ℚ := 0.35

def tractability : ℚ := 0.25

def safetyRisk : ℚ := 0.25

def competitiveLandscape : ℚ := 0.15

end SCORE_WEIGHTS

namespace GENETIC_EVIDENCE_WEIGHTS

def geneticAssociation : ℚ := 0.5

def somaticMutation : ℚ := 0.15

def literature : ℚ := 0.15

def animalModel : ℚ := 0.1

def affectedPathway : ℚ := 0.1

end GENETIC_EVIDENCE_WEIGHTS

/-- Safety severity weights for risk calculation. -/
def SAFETY_SEVERITY_WEIGHTS : SafetySeverity → ℚ
  | .CRITICAL => 0.4
  | .HIGH => 0.25
  | .MODERATE => 0.1
  | .LOW => 0.03
  | .INFORMATIONAL => 0.01

/-! ## TargetScorer (convex/lib/scoring/scorer.ts) -/

/-- Model of `calculateGeneticEvidenceScore` from scorer.ts. -/
def calculateGeneticEvidenceScore (association : Option AssociationScore) : ℚ :=
  match association with
  | none => 0
  | some a =>
    let score :=
      a.geneticAssociation * GENETIC_EVIDENCE_WEIGHTS.geneticAssociation +
      a.somaticMutation * GENETIC_EVIDENCE_WEIGHTS.somaticMutation +
      a.literature * GENETIC_EVIDENCE_WEIGHTS.literature +
      a.animalModel * GENETIC_EVIDENCE_WEIGHTS.animalModel +
      a.affectedPathway * GENETIC_EVIDENCE_WEIGHTS.affectedPathway
    min 1 score

/-- Model of `calculateTractabilityScore` from scorer.ts. -/
def calculateTractabilityScore (tractability : Option Tractability) : ℚ :=
  match tractability with
  | none => 0
  | some t =>
    let s1 : ℚ :=
      match t.smallMolecule with
      | some m => if m.isAssessed then 0.5 * min 1 ((m.buckets.length : ℚ) / 3) else 0
      | none => 0
    let s2 : ℚ :=
      match t.antibody with
      | some m => if m.isAssessed then 0.3 * min 1 ((m.buckets.length : ℚ) / 2) else 0
      | none => 0
    let s3 : ℚ :=
      match t.protac with
      | some m => if m.isAssessed then 0.1 else 0
      | none => 0
    let s4 : ℚ :=
      match t.otherModalities with
      | some l => if 0 < l.length then 0.1 * min 1 ((l.length : ℚ) / 2) else 0
      | none => 0
    min 1 (s1 + s2 + s3 + s4)

/-- Model of `calculateSafetyRiskScore` from scorer.ts. -/
def calculateSafetyRiskScore (signals : List SafetySignal) : ℚ :=
  if signals.isEmpty then 0
  else
    let totalRisk := signals.foldl (fun acc signal =>
      let base := SAFETY_SEVERITY_WEIGHTS signal.severity
      let withEvidence := if 0 < signal.evidence.length then base * 1.1 else base
      let withSummary :=
        if strTruthy signal.investigationSummary then withEvidence * 1.05 else withEvidence
      acc + withSummary) 0
    min 1 totalRisk

/-- Model of `calculateCompetitiveLandscapeScore` from scorer.ts. -/
def calculateCompetitiveLandscapeScore (landscape : Option CompetitorLandscape) : ℚ :=
  match landscape with
  | none => 0
  | some l => if l.totalTrials = 0 then 0 else l.competitiveRiskScore

/-- The four component scores passed to `calculateCompositeScore`. -/
structure ScoreComponents where
  geneticEvidence : ℚ
  tractability : ℚ
  safetyRisk : ℚ
  competitiveLandscape : ℚ
deriving DecidableEq

/-- Model of `calculateCompositeScore` from scorer.ts. -/
def calculateCompositeScore (scores : ScoreComponents) : ℚ :=
  let composite :=
    scores.geneticEvidence * SCORE_WEIGHTS.geneticEvidence +
    scores.tractability * SCORE_WEIGHTS.tractability +
    (1 - scores.safetyRisk) * SCORE_WEIGHTS.safetyRisk +
    (1 - scores.competitiveLandscape) * SCORE_WEIGHTS.competitiveLandscape
  max 0 (min 1 composite)

/-- Model of `targetScorer.calculateScores` from scorer.ts. -/
def calculateScores (association : Option AssociationScore)
    (tractability : Option Tractability) (safetySignals : List SafetySignal)
    (competitorLandscape : Option CompetitorLandscape) : TargetScores :=
  let geneticEvidence := calculateGeneticEvidenceScore association
  let tractabilityScore := calculateTractabilityScore tractability
  let safetyRisk := calculateSafetyRiskScore safetySignals
  let competitiveLandscape := calculateCompetitiveLandscapeScore competitorLandscape
  let compositeScore := calculateCompositeScore
    ⟨geneticEvidence, tractabilityScore, safetyRisk, competitiveLandscape⟩
  { geneticEvidence := geneticEvidence
    tractability := tractabilityScore
    safetyRisk := safetyRisk
    competitiveLandscape := competitiveLandscape
    compositeScore := compositeScore }

/-! Spec-side formulation of the tractability formula (for the refinement claim
about `calculateTractabilityScore`): per assessed modality,
`f = min(1, supportingCategoryCount / cap)`, caps 3 (small molecule) and
2 (antibody); PROTAC contributes a flat 0.1 when assessed; the other-modality
list contributes `0.1 * min(1, count / 2)`; absent or unassessed modalities
contribute 0; the weighted sum is clamped to [0,1]. -/

/-- Spec formula: contribution of one optional modality, scaled by bucket count. -/
def specModalityFactor (m : Option TractabilityModality) (cap : ℚ) : ℚ :=
  match m with
  | some mm => if mm.isAssessed then min 1 ((mm.buckets.length : ℚ) / cap) else 0
  | none => 0

/-- Spec formula: the full tractability score as worded in the specification. -/
def tractabilitySpecScore (tractability : Option Tractability) : ℚ :=
  match tractability with
  | none => 0
  | some t =>
    let protacTerm : ℚ :=
      match t.protac with
      | some m => if m.isAssessed then 1 else 0
      | none => 0
    let otherFactor : ℚ :=
      match t.otherModalities with
      | some l => min 1 ((l.length : ℚ) / 2)
      | none => 0
    max 0 (min 1 (0.5 * specModalityFactor t.smallMolecule 3 +
      0.3 * specModalityFactor t.antibody 2 + 0.1 * protacTerm + 0.1 * otherFactor))

/-- The small-molecule contribution inside `calculateTractabilityScore`. -/
def smTerm (m : Option TractabilityModality) : ℚ :=
  match m with
  | some mm => if mm.isAssessed then 0.5 * min 1 ((mm.buckets.length : ℚ) / 3) else 0
  | none => 0

/-- The antibody contribution inside `calculateTractabilityScore`. -/
def abTerm (m : Option TractabilityModality) : ℚ :=
  match m with
  | some mm => if mm.isAssessed then 0.3 * min 1 ((mm.buckets.length : ℚ) / 2) else 0
  | none => 0

/-- The PROTAC contribution inside `calculateTractabilityScore`. -/
def prTerm (m : Option TractabilityModality) : ℚ :=
  match m with
  | some mm => if mm.isAssessed then 0.1 else 0
  | none => 0

/-- The other-modalities contribution inside `calculateTractabilityScore`. -/
def omTerm (m : Option (List TractabilityModality)) : ℚ :=
  match m with
  | some l => if 0 < l.length then 0.1 * min 1 ((l.length : ℚ) / 2) else 0
  | none => 0

/-- Spec-side PROTAC factor: 1 when assessed, else 0. -/
def protacSpecTerm (m : Option TractabilityModality) : ℚ :=
  match m with
  | some mm => if mm.isAssessed then 1 else 0
  | none => 0

/-- Spec-side other-modalities factor: `min(1, count / 2)`. -/
def otherSpecTerm (m : Option (List TractabilityModality)) : ℚ :=
  match m with
  | some l => min 1 ((l.length : ℚ) / 2)
  | none => 0

/-! ## DecisionEngine (convex/lib/scoring/decisionEngine.ts) -/

namespace THRESHOLDS

def GO_SCORE : ℚ := 0.65

def CAUTION_SCORE : ℚ := 0.45

def INVESTIGATE_SCORE : ℚ := 0.25

def MIN_GENETIC_EVIDENCE : ℚ := 0.2

def MIN_TRACTABILITY : ℚ := 0.15

def MAX_SAFETY_RISK : ℚ := 0.7

def MAX_COMPETITIVE_RISK : ℚ := 0.8

def CRITICAL_SAFETY_SIGNALS_NOGO : ℕ := 2

def HIGH_SAFETY_SIGNALS_NOGO : ℕ := 4

end THRESHOLDS

/-- Result of `checkNoGoConditions`. -/
structure NoGoCheck where
  isNoGo : Bool
  reasons : List String
deriving DecidableEq

/-- Model of `checkNoGoConditions` from decisionEngine.ts. -/
def checkNoGoConditions (scores : TargetScores)
    (safetySignals : List SafetySignal) : NoGoCheck :=
  let criticalCount :=
    (safetySignals.filter (fun s => decide (s.severity = .CRITICAL))).length
  let highCount :=
    (safetySignals.filter (fun s => decide (s.severity = .HIGH))).length
  let reasons :=
    (if THRESHOLDS.CRITICAL_SAFETY_SIGNALS_NOGO ≤ criticalCount then
      [s!"{criticalCount} CRITICAL safety signals identified"] else []) ++
    (if THRESHOLDS.HIGH_SAFETY_SIGNALS_NOGO ≤ highCount then
      [s!"{highCount} HIGH severity safety signals identified"] else []) ++
    (if (0.9 : ℚ) ≤ scores.safetyRisk then
      ["Extreme safety risk profile"] else []) ++
    (if scores.geneticEvidence < (0.05 : ℚ) then
      ["No meaningful genetic evidence for target-disease link"] else [])
  { isNoGo := decide (0 < reasons.length), reasons := reasons }

/-- Model of `checkCautionFlags` from decisionEngine.ts. -/
def checkCautionFlags (scores : TargetScores) (safetySignals : List SafetySignal)
    (competitorLandscape : Option CompetitorLandscape) : List String :=
  let criticalCount :=
    (safetySignals.filter (fun s => decide (s.severity = .CRITICAL))).length
  let highCount :=
    (safetySignals.filter (fun s => decide (s.severity = .HIGH))).length
  (if criticalCount = 1 then
    ["One CRITICAL safety signal requires attention"] else []) ++
  (if 2 ≤ highCount ∧ highCount < THRESHOLDS.HIGH_SAFETY_SIGNALS_NOGO then
    [s!"{highCount} HIGH severity safety signals present"] else []) ++
  (if (0.4 : ℚ) ≤ scores.safetyRisk ∧ scores.safetyRisk < (0.7 : ℚ) then
    ["Elevated safety risk requires monitoring"] else []) ++
  (if (0.5 : ℚ) ≤ scores.competitiveLandscape then
    ["Significant competitive activity in this space"] else []) ++
  (match competitorLandscape with
   | some cl =>
     (if 2 ≤ cl.failureReasons.safety then
       ["Multiple competitor safety failures - potential target liability"] else []) ++
     (if 5 ≤ cl.activeTrials then
       ["High number of active competitor trials"] else [])
   | none => []) ++
  (if scores.tractability < (0.3 : ℚ) ∧ THRESHOLDS.MIN_TRACTABILITY ≤ scores.tractability then
    ["Limited tractability options available"] else []) ++
  (if scores.geneticEvidence < (0.3 : ℚ) ∧ THRESHOLDS.MIN_GENETIC_EVIDENCE ≤ scores.geneticEvidence then
    ["Moderate genetic evidence - additional validation recommended"] else [])

/-- Model of `checkInvestigationFlags` from decisionEngine.ts. -/
def checkInvestigationFlags (scores : TargetScores)
    (safetySignals : List SafetySignal) : List String :=
  let uninvestigatedHighSignals := safetySignals.filter (fun s =>
    (decide (s.severity = .HIGH) || decide (s.severity = .CRITICAL)) &&
      !(strTruthy s.investigationSummary))
  (if 0 < uninvestigatedHighSignals.length then
    [s!"{uninvestigatedHighSignals.length} high-severity safety signals need deeper investigation"]
   else []) ++
  (if (0.4 : ℚ) ≤ scores.compositeScore ∧ scores.compositeScore < (0.5 : ℚ) then
    ["Borderline composite score - additional data could clarify"] else []) ++
  (if (0.6 : ℚ) ≤ scores.geneticEvidence ∧ (0.5 : ℚ) ≤ scores.safetyRisk then
    ["Strong genetics but elevated safety risk - investigate tradeoff"] else []) ++
  (if (0.6 : ℚ) ≤ scores.tractability ∧ (0.6 : ℚ) ≤ scores.competitiveLandscape then
    ["Good tractability but high competition - assess differentiation strategy"] else [])

/-- The decision returned by `determineVerdict` (free-text `recommendations`,
which no code path branches on, are not modelled). -/
structure Decision where
  verdict : Verdict
  cautionFlags : List String
  investigationFlags : List String
  noGoReasons : List String
deriving DecidableEq

/-- Model of `decisionEngine.determineVerdict` from decisionEngine.ts. -/
def determineVerdict (scores : TargetScores) (safetySignals : List SafetySignal)
    (competitorLandscape : Option CompetitorLandscape) : Decision :=
  let noGoCheck := checkNoGoConditions scores safetySignals
  if noGoCheck.isNoGo then
    { verdict := .NO_GO
      cautionFlags := []
      investigationFlags := []
      noGoReasons := noGoCheck.reasons }
  else
    let cautionFlags := checkCautionFlags scores safetySignals competitorLandscape
    let investigationFlags := checkInvestigationFlags scores safetySignals
    let verdict : Verdict :=
      if THRESHOLDS.GO_SCORE ≤ scores.compositeScore ∧ cautionFlags.length = 0 then
        .GO
      else if THRESHOLDS.CAUTION_SCORE ≤ scores.compositeScore then
        if 0 < cautionFlags.length then .GO_WITH_CAUTION
        else if 0 < investigationFlags.length then .INVESTIGATE_FURTHER
        else .GO_WITH_CAUTION
      else if THRESHOLDS.INVESTIGATE_SCORE ≤ scores.compositeScore then
        .INVESTIGATE_FURTHER
      else
        if 0 < investigationFlags.length then .INVESTIGATE_FURTHER else .NO_GO
    let verdict :=
      if (0.5 : ℚ) ≤ scores.safetyRisk ∧ verdict = .GO then .GO_WITH_CAUTION else verdict
    let verdict :=
      if 3 ≤ investigationFlags.length ∧ verdict = .GO_WITH_CAUTION then
        .INVESTIGATE_FURTHER
      else verdict
    { verdict := verdict
      cautionFlags := cautionFlags
      investigationFlags := investigationFlags
      noGoReasons := [] }

/-! ## ClinicalTrials.gov client (convex/lib/clients/ctgovClient.ts) -/

namespace FAILURE_KEYWORDS

def safety : List String :=
  ["safety", "adverse", "toxicity", "side effect", "death", "serious", "toxic",
   "hepatotoxic", "cardiotoxic"]

def efficacy : List String :=
  ["efficacy", "endpoint", "futility", "lack of effect", "no benefit",
   "ineffective", "failed endpoint"]

def business : List String :=
  ["business", "strategic", "funding", "sponsor", "commercial", "financial",
   "discontinued"]

end FAILURE_KEYWORDS

/-- Model of `categorizeFailure` from ctgovClient.ts: lowercase the stop reason and match
it against the safety, efficacy, then business keyword lists, in that order. -/
def categorizeFailure (reason : Option String) : FailureCategory :=
  match reason with
  | none => .other
  | some r =>
    let reasonLower := toLowerStr r
    if FAILURE_KEYWORDS.safety.any (fun k => strIncludes reasonLower k) then .safety
    else if FAILURE_KEYWORDS.efficacy.any (fun k => strIncludes reasonLower k) then .efficacy
    else if FAILURE_KEYWORDS.business.any (fun k => strIncludes reasonLower k) then .business
    else .other

/-- Is a trial counted as active by `getCompetitorLandscape`'s status switch? -/
def countsAsActive (status : TrialStatus) : Bool :=
  decide (status = .RECRUITING) || decide (status = .ACTIVE) ||
    decide (status = .SUSPENDED)

/-- Is a trial counted as failed (terminated or withdrawn)? -/
def countsAsFailed (status : TrialStatus) : Bool :=
  decide (status = .TERMINATED) || decide (status = .WITHDRAWN)

/-- Model of `ctgovClient.getCompetitorLandscape` from ctgovClient.ts, with the fetched
trial list supplied as a parameter in place of the HTTP search (free-text
`landscapeSummary` not modelled). -/
def getCompetitorLandscape (geneSymbol diseaseId : String)
    (trials : List ClinicalTrial) : CompetitorLandscape :=
  let activeTrials := (trials.filter (fun t => countsAsActive t.status)).length
  let completedTrials := (trials.filter (fun t => decide (t.status = .COMPLETED))).length
  let failedTrials := (trials.filter (fun t => countsAsFailed t.status)).length
  let failedList := trials.filter (fun t => countsAsFailed t.status)
  let failureReasons : FailureReasons :=
    { safety := (failedList.filter (fun t => decide (categorizeFailure t.failureReason = .safety))).length
      efficacy := (failedList.filter (fun t => decide (categorizeFailure t.failureReason = .efficacy))).length
      business := (failedList.filter (fun t => decide (categorizeFailure t.failureReason = .business))).length
      other := (failedList.filter (fun t => decide (categorizeFailure t.failureReason = .other))).length }
  let totalTrials := trials.length
  let competitiveRiskScore : ℚ :=
    if 0 < totalTrials then
      let activeRatio : ℚ := (activeTrials : ℚ) / (totalTrials : ℚ)
      let failureRatio : ℚ := (failedTrials : ℚ) / (totalTrials : ℚ)
      let lateStageTrials :=
        (trials.filter (fun t => decide (t.phase = "Phase 3") || decide (t.phase = "Phase 4"))).length
      let lateStageRatio : ℚ := (lateStageTrials : ℚ) / (totalTrials : ℚ)
      min 1 (activeRatio * 0.4 + failureRatio * 0.3 + lateStageRatio * 0.3)
    else 0
  { targetId := geneSymbol
    diseaseId := diseaseId
    totalTrials := totalTrials
    activeTrials := activeTrials
    completedTrials := completedTrials
    failedTrials := failedTrials
    trials := trials
    failureReasons := failureReasons
    competitiveRiskScore := competitiveRiskScore }

/-! ## SafetyInvestigator (convex/lib/tools/safetyInvestigator.ts) -/

/-- Severity ordering used for comparisons. -/
def SEVERITY_ORDER : SafetySeverity → ℕ
  | .CRITICAL => 4
  | .HIGH => 3
  | .MODERATE => 2
  | .LOW => 1
  | .INFORMATIONAL => 0

/-- Critical organ systems that require investigation. -/
def CRITICAL_ORGAN_SYSTEMS : List String :=
  ["liver", "heart", "kidney", "brain", "lung"]

/-- Signal types that can be investigated. -/
def INVESTIGATABLE_SIGNAL_TYPES : List String :=
  ["target_safety", "known_safety_risk", "toxic_effect", "hepatotoxicity",
   "cardiotoxicity", "nephrotoxicity", "neurotoxicity", "hematological_toxicity",
   "reproductive_toxicity", "immunotoxicity", "genotoxicity"]

/-- Model of `needsInvestigation` from safetyInvestigator.ts. -/
def needsInvestigation (signal : SafetySignal) : Bool :=
  decide (signal.severity = .CRITICAL) || decide (signal.severity = .HIGH) ||
  (strTruthy signal.organSystem &&
    CRITICAL_ORGAN_SYSTEMS.any (fun organ =>
      strIncludes (toLowerStr (signal.organSystem.getD "")) organ)) ||
  INVESTIGATABLE_SIGNAL_TYPES.any (fun ty =>
    strIncludes (toLowerStr signal.signalType) ty)

/-- Model of `generateInvestigationSummary` from safetyInvestigator.ts: deterministic
natural-language summary counting the new evidence by type. -/
def generateInvestigationSummary (signal : SafetySignal)
    (newEvidence : List SafetyEvidence) : String :=
  let countOf : SafetyEvidenceType → ℕ := fun ty =>
    (newEvidence.filter (fun e => decide (e.type = ty))).length
  let organPart : List String :=
    match signal.organSystem with
    | some organ => if organ != "" then [s!"for {organ}"] else []
    | none => []
  let regulatoryCount := countOf .REGULATORY
  let compoundCount := countOf .COMPOUND
  let paperCount := countOf .PAPER
  let trialCount := countOf .CLINICAL_TRIAL
  let animalCount := countOf .ANIMAL_MODEL
  let typeSummaries : List String :=
    (if 0 < regulatoryCount then [s!"{regulatoryCount} regulatory actions"] else []) ++
    (if 0 < compoundCount then [s!"{compoundCount} compound-related findings"] else []) ++
    (if 0 < paperCount then [s!"{paperCount} literature references"] else []) ++
    (if 0 < trialCount then [s!"{trialCount} clinical trial findings"] else []) ++
    (if 0 < animalCount then [s!"{animalCount} animal model studies"] else [])
  let joined := String.intercalate ", " typeSummaries
  let evidenceCount := newEvidence.length
  let parts : List String :=
    [s!"Investigation of {signal.signalType} signal"] ++ organPart ++
    [s!": Found {evidenceCount} pieces of supporting evidence."] ++
    (if 0 < typeSummaries.length then [s!" Evidence includes: {joined}."] else []) ++
    (if newEvidence.any (fun e =>
        match e.confidence with
        | some c => decide ((0.8 : ℚ) < c)
        | none => false) then
      [" HIGH confidence in safety concern."] else [])
  String.join parts

/-- Does the newly gathered evidence contain a regulatory item with
confidence above 0.9?  (The escalation trigger inside `getSafetyProfile`.) -/
def hasStrongRegulatoryEvidence (newEvidence : List SafetyEvidence) : Bool :=
  newEvidence.any (fun e =>
    decide (e.type = .REGULATORY) &&
      (match e.confidence with
       | some c => decide ((0.9 : ℚ) < c)
       | none => false))

/-- The per-signal investigation step inside `getSafetyProfile` (the body of
its `signalsToInvestigate.map`): append the evidence gathered by
`investigateSignal`'s secondary queries (supplied here as `newEvidence`),
attach the generated summary, and apply the severity escalation rule. -/
def applyInvestigation (signal : SafetySignal)
    (newEvidence : List SafetyEvidence) : SafetySignal :=
  let investigatedSignal : SafetySignal :=
    { signal with
      evidence := signal.evidence ++ newEvidence
      investigationSummary := some (generateInvestigationSummary signal newEvidence) }
  if hasStrongRegulatoryEvidence newEvidence then
    if investigatedSignal.severity ≠ .CRITICAL ∧
        SEVERITY_ORDER investigatedSignal.severity < SEVERITY_ORDER .HIGH then
      { investigatedSignal with severity := .HIGH }
    else investigatedSignal
  else investigatedSignal

/-- The merge key used in `getSafetyProfile`:
`s.signalType + (s.organSystem || "")`. -/
def signalKey (s : SafetySignal) : String :=
  s.signalType ++ s.organSystem.getD ""

/-- Model of `calculateOverallRisk` from safetyInvestigator.ts. -/
def calculateOverallRisk (signals : List SafetySignal) : SafetySeverity :=
  if signals.isEmpty then .INFORMATIONAL
  else
    let maxSeverity := signals.foldl
      (fun acc s =>
        if SEVERITY_ORDER acc < SEVERITY_ORDER s.severity then s.severity else acc)
      .INFORMATIONAL
    let highCount := (signals.filter (fun s => decide (s.severity = .HIGH))).length
    if 3 ≤ highCount ∧ maxSeverity = .HIGH then .CRITICAL else maxSeverity

/-- Model of `safetyInvestigator.getSafetyProfile` from safetyInvestigator.ts, with its
two I/O steps supplied as parameters: `initialSignals` is the provider's raw
safety-liability list and `evidenceFor` is the evidence gathered by
`investigateSignal`'s parallel secondary queries for a given signal. -/
def getSafetyProfile (ensemblId : String) (initialSignals : List SafetySignal)
    (evidenceFor : SafetySignal → List SafetyEvidence) : SafetyProfile :=
  let signalsToInvestigate := initialSignals.filter needsInvestigation
  let investigatedSignals :=
    signalsToInvestigate.map (fun s => applyInvestigation s (evidenceFor s))
  let investigatedIds := signalsToInvestigate.map signalKey
  let uninvestigatedSignals :=
    initialSignals.filter (fun s => !(investigatedIds.contains (signalKey s)))
  let allSignals := investigatedSignals ++ uninvestigatedSignals
  { targetId := ensemblId
    signals := allSignals
    overallRisk := calculateOverallRisk allSignals
    criticalSignalCount :=
      (allSignals.filter (fun s => decide (s.severity = .CRITICAL))).length
    highSignalCount :=
      (allSignals.filter (fun s => decide (s.severity = .HIGH))).length
    moderateSignalCount :=
      (allSignals.filter (fun s => decide (s.severity = .MODERATE))).length
    lowSignalCount :=
      (allSignals.filter (fun s =>
        decide (s.severity = .LOW) || decide (s.severity = .INFORMATIONAL))).length }

/-! ## Orchestrator (convex/triage actions, `runTriage`) -/

/-- JS `Math.round` on a non-negative rational: round half away from zero,
i.e. `⌊q + 1/2⌋` for `q ≥ 0`. -/
def jsRound (q : ℚ) : ℤ :=
  ⌊q + 1 / 2⌋

/-- The per-gene data pushed onto `results` in `runTriage` (symbol of the
resolved target, its verdict, and its composite score). -/
structure GeneResult where
  symbol : String
  verdict : Verdict
  compositeScore : ℚ
deriving DecidableEq

/-- ReportSummary persisted in the TriageReport. -/
structure ReportSummary where
  totalTargets : ℕ
  goCount : ℕ
  cautionCount : ℕ
  investigateCount : ℕ
  noGoCount : ℕ
  topTargets : List String
deriving DecidableEq

/-- The `topTargets` computation in `runTriage`: keep only GO and
GO_WITH_CAUTION results, stable-sort descending by composite score (JS
`Array.prototype.sort` is stable), take 5, and project the symbols. -/
def summaryTopTargets (results : List GeneResult) : List String :=
  ((results.filter (fun r =>
      decide (r.verdict = .GO) || decide (r.verdict = .GO_WITH_CAUTION))).mergeSort
    (fun a b => decide (b.compositeScore ≤ a.compositeScore))).take 5
    |>.map (fun r => r.symbol)

/-- The ReportSummary built at the end of `runTriage`. -/
def mkReportSummary (results : List GeneResult) : ReportSummary :=
  { totalTargets := results.length
    goCount := (results.filter (fun r => decide (r.verdict = .GO))).length
    cautionCount :=
      (results.filter (fun r => decide (r.verdict = .GO_WITH_CAUTION))).length
    investigateCount :=
      (results.filter (fun r => decide (r.verdict = .INVESTIGATE_FURTHER))).length
    noGoCount := (results.filter (fun r => decide (r.verdict = .NO_GO))).length
    topTargets := summaryTopTargets results }

/-- Observable outcome of one `runTriage` execution: the sequence of progress
values written through `updateTriageProgress`, the final job status, the
per-gene results that produced TargetReports, and the persisted summary. -/
structure TriageRun where
  progressWrites : List ℤ
  finalStatus : TriageStatus
  results : List GeneResult
  summary : ReportSummary
deriving DecidableEq

/-- Model of `runTriage` from the orchestrator action, assuming job-state persistence
succeeds.  The per-gene `triageSingleTarget` call (network I/O) is replaced by
its outcome: entry `i` of `outcomes` is `none` exactly when gene `i` is
unresolvable or its processing throws (the source catches both, logs, and
continues), and `some r` when a TargetReport was produced.  The model records
the initial progress-0 write, the `Math.round((i / N) * 100)` write made
before processing gene `i`, and the final write of 100 with status
COMPLETED. -/
def runTriage (genes : List String) (outcomes : List (Option GeneResult)) :
    TriageRun :=
  let N := genes.length
  let results := outcomes.filterMap id
  { progressWrites :=
      0 :: (((List.range N).map (fun i : ℕ => jsRound ((i : ℚ) / (N : ℚ) * 100))) ++ [100])
    finalStatus := .COMPLETED
    results := results
    summary := mkReportSummary results }

/-! ## Theorems -/

/-- Clamping to [0,1] is monotone. -/
lemma clamp01_mono {x y : ℚ} (h : x ≤ y) : max 0 (min 1 x) ≤ max 0 (min 1 y) :=
  max_le_max le_rfl (min_le_min le_rfl h)

/-- Model of `calculateCompositeScore` unfolded to its clamped linear form. -/
lemma calculateCompositeScore_def (sc : ScoreComponents) :
    calculateCompositeScore sc =
      max 0 (min 1 (sc.geneticEvidence * 0.35 + sc.tractability * 0.25 +
        (1 - sc.safetyRisk) * 0.25 + (1 - sc.competitiveLandscape) * 0.15)) :=
  rfl

/-- C1: for component inputs in [0,1], `calculateCompositeScore` equals
`0.35·geneticEvidence + 0.25·tractability + 0.25·(1−safetyRisk) +
0.15·(1−competitiveLandscape)` (the clamp to [0,1] is the identity there), the
result lies in [0,1], and the score is monotonically increasing in
geneticEvidence and tractability and monotonically decreasing in safetyRisk
and competitiveLandscape. -/
theorem calculateCompositeScore_spec (g t s c : ℚ)
    (hg0 : 0 ≤ g) (hg1 : g ≤ 1) (ht0 : 0 ≤ t) (ht1 : t ≤ 1)
    (hs0 : 0 ≤ s) (hs1 : s ≤ 1) (hc0 : 0 ≤ c) (hc1 : c ≤ 1) :
    calculateCompositeScore ⟨g, t, s, c⟩ =
      0.35 * g + 0.25 * t + 0.25 * (1 - s) + 0.15 * (1 - c) ∧
    0 ≤ calculateCompositeScore ⟨g, t, s, c⟩ ∧
    calculateCompositeScore ⟨g, t, s, c⟩ ≤ 1 ∧
    (∀ g', g ≤ g' →
      calculateCompositeScore ⟨g, t, s, c⟩ ≤ calculateCompositeScore ⟨g', t, s, c⟩) ∧
    (∀ t', t ≤ t' →
      calculateCompositeScore ⟨g, t, s, c⟩ ≤ calculateCompositeScore ⟨g, t', s, c⟩) ∧
    (∀ s', s ≤ s' →
      calculateCompositeScore ⟨g, t, s', c⟩ ≤ calculateCompositeScore ⟨g, t, s, c⟩) ∧
    (∀ c', c ≤ c' →
      calculateCompositeScore ⟨g, t, s, c'⟩ ≤ calculateCompositeScore ⟨g, t, s, c⟩) := by
  have hlin : g * 0.35 + t * 0.25 + (1 - s) * 0.25 + (1 - c) * 0.15 =
      0.35 * g + 0.25 * t + 0.25 * (1 - s) + 0.15 * (1 - c) := by ring
  have h0 : 0 ≤ 0.35 * g + 0.25 * t + 0.25 * (1 - s) + 0.15 * (1 - c) := by
    nlinarith
  have h1 : 0.35 * g + 0.25 * t + 0.25 * (1 - s) + 0.15 * (1 - c) ≤ 1 := by
    nlinarith
  have heq : calculateCompositeScore ⟨g, t, s, c⟩ =
      0.35 * g + 0.25 * t + 0.25 * (1 - s) + 0.15 * (1 - c) := by
    rw [calculateCompositeScore_def]
    simp only [hlin]
    rw [min_eq_right h1, max_eq_right h0]
  refine ⟨heq, ?_, ?_, ?_, ?_, ?_, ?_⟩
  · rw [heq]; exact h0
  · rw [heq]; exact h1
  · intro g' hgg
    rw [calculateCompositeScore_def, calculateCompositeScore_def]
    exact clamp01_mono (by nlinarith)
  · intro t' htt
    rw [calculateCompositeScore_def, calculateCompositeScore_def]
    exact clamp01_mono (by nlinarith)
  · intro s' hss
    rw [calculateCompositeScore_def, calculateCompositeScore_def]
    exact clamp01_mono (by nlinarith)
  · intro c' hcc
    rw [calculateCompositeScore_def, calculateCompositeScore_def]
    exact clamp01_mono (by nlinarith)

/-- Witness for C1 at the concrete point (1/2, 1/2, 1/2, 1/2). -/
theorem calculateCompositeScore_spec_witness :
    calculateCompositeScore ⟨1/2, 1/2, 1/2, 1/2⟩ =
      0.35 * (1/2 : ℚ) + 0.25 * (1/2) + 0.25 * (1 - 1/2) + 0.15 * (1 - 1/2) :=
  (calculateCompositeScore_spec (1/2) (1/2) (1/2) (1/2)
    (by norm_num) (by norm_num) (by norm_num) (by norm_num)
    (by norm_num) (by norm_num) (by norm_num) (by norm_num)).1

/-- C8: `calculateTractabilityScore` equals the spec-side weighted modality
formula (weights 0.5/0.3/0.1/0.1, per-modality factor `min(1, buckets/cap)`
with caps 3/2/2, flat 0.1 for an assessed PROTAC, 0 for absent or unassessed
modalities) clamped to [0,1], and the result lies in [0,1]. -/
theorem calculateTractabilityScore_spec (t : Option Tractability) :
    calculateTractabilityScore t = tractabilitySpecScore t ∧
    0 ≤ calculateTractabilityScore t ∧ calculateTractabilityScore t ≤ 1 := by
  have hfac : ∀ (m : Option TractabilityModality) (cap : ℚ), 0 < cap →
      0 ≤ specModalityFactor m cap := by
    intro m cap hcap
    rcases m with _ | mm
    · exact le_refl 0
    · simp only [specModalityFactor]
      split_ifs
      · exact le_min (by norm_num) (by positivity)
      · exact le_refl 0
  rcases t with _ | ⟨sm, ab, pr, om⟩
  · exact ⟨rfl, le_refl 0, by norm_num [calculateTractabilityScore]⟩
  · have hsm : smTerm sm = 0.5 * specModalityFactor sm 3 := by
      rcases sm with _ | m
      · simp [smTerm, specModalityFactor]
      · simp only [smTerm, specModalityFactor]
        split_ifs <;> simp
    have hab : abTerm ab = 0.3 * specModalityFactor ab 2 := by
      rcases ab with _ | m
      · simp [abTerm, specModalityFactor]
      · simp only [abTerm, specModalityFactor]
        split_ifs <;> simp
    have hpr : prTerm pr = 0.1 * protacSpecTerm pr := by
      rcases pr with _ | m
      · simp [prTerm, protacSpecTerm]
      · simp only [prTerm, protacSpecTerm]
        split_ifs <;> norm_num
    have hom : omTerm om = 0.1 * otherSpecTerm om := by
      rcases om with _ | l
      · simp [omTerm, otherSpecTerm]
      · simp only [omTerm, otherSpecTerm]
        split_ifs with h
        · rfl
        · have hl : l.length = 0 := by omega
          simp [hl]
    have hnn : 0 ≤ smTerm sm + abTerm ab + prTerm pr + omTerm om := by
      have h1 : 0 ≤ smTerm sm := by
        rw [hsm]; have := hfac sm 3 (by norm_num); linarith
      have h2 : 0 ≤ abTerm ab := by
        rw [hab]; have := hfac ab 2 (by norm_num); linarith
      have h3 : 0 ≤ prTerm pr := by
        rcases pr with _ | m
        · exact le_refl 0
        · simp only [prTerm]; split_ifs <;> norm_num
      have h4 : 0 ≤ omTerm om := by
        rcases om with _ | l
        · exact le_refl 0
        · simp only [omTerm]
          split_ifs
          · have : (0 : ℚ) ≤ min 1 ((l.length : ℚ) / 2) :=
              le_min (by norm_num) (by positivity)
            linarith
          · exact le_refl 0
      linarith
    have hcode : calculateTractabilityScore (some ⟨sm, ab, pr, om⟩) =
        min 1 (smTerm sm + abTerm ab + prTerm pr + omTerm om) := rfl
    have hspec : tractabilitySpecScore (some ⟨sm, ab, pr, om⟩) =
        max 0 (min 1 (0.5 * specModalityFactor sm 3 + 0.3 * specModalityFactor ab 2 +
          0.1 * protacSpecTerm pr + 0.1 * otherSpecTerm om)) := rfl
    refine ⟨?_, ?_, ?_⟩
    · rw [hcode, hspec, ← hsm, ← hab, ← hpr, ← hom,
        max_eq_right (le_min (by norm_num) hnn)]
    · rw [hcode]; exact le_min (by norm_num) hnn
    · rw [hcode]; exact min_le_left _ _

/-- Projection identity for `checkNoGoConditions`. -/
lemma checkNoGoConditions_isNoGo_eq (scores : TargetScores)
    (signals : List SafetySignal) :
    (checkNoGoConditions scores signals).isNoGo =
      decide (0 < (checkNoGoConditions scores signals).reasons.length) :=
  rfl

/-- C2: whenever the signal list has ≥2 CRITICAL signals, or ≥4 HIGH signals,
or safetyRisk ≥ 0.9, or geneticEvidence < 0.05, `determineVerdict` returns
NO_GO with a non-empty `noGoReasons` list and empty caution and investigation
flag lists, regardless of compositeScore or any other input. -/
theorem determineVerdict_noGo_short_circuits (scores : TargetScores)
    (signals : List SafetySignal) (landscape : Option CompetitorLandscape)
    (h : 2 ≤ (signals.filter (fun s => decide (s.severity = .CRITICAL))).length ∨
         4 ≤ (signals.filter (fun s => decide (s.severity = .HIGH))).length ∨
         (0.9 : ℚ) ≤ scores.safetyRisk ∨
         scores.geneticEvidence < (0.05 : ℚ)) :
    (determineVerdict scores signals landscape).verdict = .NO_GO ∧
    (determineVerdict scores signals landscape).noGoReasons ≠ [] ∧
    (determineVerdict scores signals landscape).cautionFlags = [] ∧
    (determineVerdict scores signals landscape).investigationFlags = [] := by
  have hne : (checkNoGoConditions scores signals).reasons ≠ [] := by
    simp only [checkNoGoConditions, THRESHOLDS.CRITICAL_SAFETY_SIGNALS_NOGO,
      THRESHOLDS.HIGH_SAFETY_SIGNALS_NOGO]
    rcases h with h | h | h | h <;>
      simp [h, List.append_eq_nil]
  have hb : (checkNoGoConditions scores signals).isNoGo = true := by
    rw [checkNoGoConditions_isNoGo_eq]
    exact decide_eq_true (List.length_pos.mpr hne)
  have hd : determineVerdict scores signals landscape =
      { verdict := .NO_GO, cautionFlags := [], investigationFlags := [],
        noGoReasons := (checkNoGoConditions scores signals).reasons } := by
    unfold determineVerdict
    simp [hb]
  rw [hd]
  exact ⟨rfl, hne, rfl, rfl⟩

/-- Witness for C2: safetyRisk = 1 forces NO_GO with empty flags. -/
theorem determineVerdict_noGo_short_circuits_witness :
    (determineVerdict ⟨0.5, 0.5, 1, 0, 0.6⟩ [] none).verdict = .NO_GO ∧
    (determineVerdict ⟨0.5, 0.5, 1, 0, 0.6⟩ [] none).noGoReasons ≠ [] ∧
    (determineVerdict ⟨0.5, 0.5, 1, 0, 0.6⟩ [] none).cautionFlags = [] ∧
    (determineVerdict ⟨0.5, 0.5, 1, 0, 0.6⟩ [] none).investigationFlags = [] :=
  determineVerdict_noGo_short_circuits ⟨0.5, 0.5, 1, 0, 0.6⟩ [] none
    (Or.inr (Or.inr (Or.inl (by norm_num))))

/-- C3 (scenario A): association with geneticAssociation 0.8 and all other
sub-scores 0, unassessed tractability, no safety signals, and an absent or
zero-trial competitor landscape yield scores (0.40, 0, 0, 0) with composite
0.54, and `determineVerdict` returns GO_WITH_CAUTION with no caution flags and
no investigation flags. -/
theorem calculateScores_scenarioA (landscape : Option CompetitorLandscape)
    (h : landscape = none ∨
         ∃ gs di, landscape = some (getCompetitorLandscape gs di [])) :
    calculateScores (some ⟨0, 0.8, 0, 0, 0, 0, 0, 0⟩) none [] landscape =
      ⟨0.40, 0, 0, 0, 0.54⟩ ∧
    (determineVerdict (calculateScores (some ⟨0, 0.8, 0, 0, 0, 0, 0, 0⟩) none []
        landscape) [] landscape).verdict = .GO_WITH_CAUTION ∧
    (determineVerdict (calculateScores (some ⟨0, 0.8, 0, 0, 0, 0, 0, 0⟩) none []
        landscape) [] landscape).cautionFlags = [] ∧
    (determineVerdict (calculateScores (some ⟨0, 0.8, 0, 0, 0, 0, 0, 0⟩) none []
        landscape) [] landscape).investigationFlags = [] := by
  have hscores : ∀ lo : Option CompetitorLandscape,
      calculateCompetitiveLandscapeScore lo = 0 →
      calculateScores (some ⟨0, 0.8, 0, 0, 0, 0, 0, 0⟩) none [] lo =
        ⟨0.40, 0, 0, 0, 0.54⟩ := by
    intro lo hlo
    simp only [calculateScores, calculateGeneticEvidenceScore,
      calculateTractabilityScore, calculateSafetyRiskScore, hlo,
      calculateCompositeScore, SCORE_WEIGHTS.geneticEvidence,
      SCORE_WEIGHTS.tractability, SCORE_WEIGHTS.safetyRisk,
      SCORE_WEIGHTS.competitiveLandscape,
      GENETIC_EVIDENCE_WEIGHTS.geneticAssociation,
      GENETIC_EVIDENCE_WEIGHTS.somaticMutation,
      GENETIC_EVIDENCE_WEIGHTS.literature,
      GENETIC_EVIDENCE_WEIGHTS.animalModel,
      GENETIC_EVIDENCE_WEIGHTS.affectedPathway, List.isEmpty_nil, if_true]
    norm_num
  have hngc : checkNoGoConditions ⟨0.40, 0, 0, 0, 0.54⟩ [] = ⟨false, []⟩ := by
    norm_num [checkNoGoConditions, THRESHOLDS.CRITICAL_SAFETY_SIGNALS_NOGO,
      THRESHOLDS.HIGH_SAFETY_SIGNALS_NOGO]
  have hinv : checkInvestigationFlags ⟨0.40, 0, 0, 0, 0.54⟩ [] = [] := by
    norm_num [checkInvestigationFlags]
  rcases h with h | ⟨gs, di, h⟩ <;> subst h
  · have hs := hscores none rfl
    have hcf : checkCautionFlags ⟨0.40, 0, 0, 0, 0.54⟩ [] none = [] := by
      norm_num [checkCautionFlags, THRESHOLDS.MIN_TRACTABILITY,
        THRESHOLDS.MIN_GENETIC_EVIDENCE, THRESHOLDS.HIGH_SAFETY_SIGNALS_NOGO]
    have hvd : determineVerdict ⟨0.40, 0, 0, 0, 0.54⟩ [] none =
        ⟨.GO_WITH_CAUTION, [], [], []⟩ := by
      unfold determineVerdict
      rw [hngc]
      simp only [hcf, hinv, List.length_nil]
      norm_num [THRESHOLDS.GO_SCORE, THRESHOLDS.CAUTION_SCORE,
        THRESHOLDS.INVESTIGATE_SCORE]
    refine ⟨hs, ?_, ?_, ?_⟩ <;> rw [hs, hvd]
  · have hz : calculateCompetitiveLandscapeScore
        (some (getCompetitorLandscape gs di [])) = 0 := by
      simp [calculateCompetitiveLandscapeScore, getCompetitorLandscape]
    have hs := hscores _ hz
    have hcf : checkCautionFlags ⟨0.40, 0, 0, 0, 0.54⟩ []
        (some (getCompetitorLandscape gs di [])) = [] := by
      norm_num [checkCautionFlags, getCompetitorLandscape,
        THRESHOLDS.MIN_TRACTABILITY, THRESHOLDS.MIN_GENETIC_EVIDENCE,
        THRESHOLDS.HIGH_SAFETY_SIGNALS_NOGO]
    have hvd : determineVerdict ⟨0.40, 0, 0, 0, 0.54⟩ []
        (some (getCompetitorLandscape gs di [])) =
        ⟨.GO_WITH_CAUTION, [], [], []⟩ := by
      unfold determineVerdict
      rw [hngc]
      simp only [hcf, hinv, List.length_nil]
      norm_num [THRESHOLDS.GO_SCORE, THRESHOLDS.CAUTION_SCORE,
        THRESHOLDS.INVESTIGATE_SCORE]
    refine ⟨hs, ?_, ?_, ?_⟩ <;> rw [hs, hvd]

/-- Witness for C3 with the absent landscape. -/
theorem calculateScores_scenarioA_witness :
    calculateScores (some ⟨0, 0.8, 0, 0, 0, 0, 0, 0⟩) none [] none =
      ⟨0.40, 0, 0, 0, 0.54⟩ :=
  (calculateScores_scenarioA none (Or.inl rfl)).1

/-- C5 counterexample: the stop reason "discontinued due to elevated liver
enzymes" contains no safety keyword ("liver" is not in the safety list) but
contains the business keyword "discontinued", so `categorizeFailure` returns
"business", not "safety" as the claim asserts. -/
theorem categorizeFailure_liver_enzymes_counterexample :
    categorizeFailure (some "discontinued due to elevated liver enzymes") =
      .business ∧
    categorizeFailure (some "discontinued due to elevated liver enzymes") ≠
      .safety := by
  decide

/-- C5 (amended): `categorizeFailure` lowercases the stop reason and matches it
against the fixed safety keyword list first, then efficacy, then business,
returning the first category with a matching keyword, and returns "other" when
the reason is absent or matches no keyword; a reason containing both a safety
keyword and a business keyword categorizes as "safety" (demonstrated on a
concrete ambiguous reason); the reason "discontinued due to elevated liver
enzymes" matches only the business keyword "discontinued" and categorizes as
"business". -/
theorem categorizeFailure_keyword_order (reason : String) :
    (FAILURE_KEYWORDS.safety.any
        (fun k => strIncludes (toLowerStr reason) k) = true →
      categorizeFailure (some reason) = .safety) ∧
    (FAILURE_KEYWORDS.safety.any
        (fun k => strIncludes (toLowerStr reason) k) = false →
      FAILURE_KEYWORDS.efficacy.any
        (fun k => strIncludes (toLowerStr reason) k) = true →
      categorizeFailure (some reason) = .efficacy) ∧
    (FAILURE_KEYWORDS.safety.any
        (fun k => strIncludes (toLowerStr reason) k) = false →
      FAILURE_KEYWORDS.efficacy.any
        (fun k => strIncludes (toLowerStr reason) k) = false →
      FAILURE_KEYWORDS.business.any
        (fun k => strIncludes (toLowerStr reason) k) = true →
      categorizeFailure (some reason) = .business) ∧
    (FAILURE_KEYWORDS.safety.any
        (fun k => strIncludes (toLowerStr reason) k) = false →
      FAILURE_KEYWORDS.efficacy.any
        (fun k => strIncludes (toLowerStr reason) k) = false →
      FAILURE_KEYWORDS.business.any
        (fun k => strIncludes (toLowerStr reason) k) = false →
      categorizeFailure (some reason) = .other) ∧
    categorizeFailure none = .other ∧
    categorizeFailure
      (some "terminated early after serious adverse events and a sponsor funding decision") =
      .safety ∧
    categorizeFailure (some "discontinued due to elevated liver enzymes") =
      .business := by
  refine ⟨?_, ?_, ?_, ?_, rfl, by decide, by decide⟩
  · intro h1
    simp [categorizeFailure, h1]
  · intro h1 h2
    simp [categorizeFailure, h1, h2]
  · intro h1 h2 h3
    simp [categorizeFailure, h1, h2, h3]
  · intro h1 h2 h3
    simp [categorizeFailure, h1, h2, h3]

/-- Witness for C5's amended theorem at a concrete safety-keyword reason. -/
theorem categorizeFailure_keyword_order_witness :
    categorizeFailure (some "halted after toxicity findings") = .safety :=
  (categorizeFailure_keyword_order "halted after toxicity findings").1 (by decide)

/-- Projection: `activeTrials` of the aggregated landscape. -/
lemma getCompetitorLandscape_activeTrials (gs di : String)
    (L : List ClinicalTrial) :
    (getCompetitorLandscape gs di L).activeTrials =
      (L.filter (fun x => countsAsActive x.status)).length :=
  rfl

/-- Projection: `totalTrials` of the aggregated landscape. -/
lemma getCompetitorLandscape_totalTrials (gs di : String)
    (L : List ClinicalTrial) :
    (getCompetitorLandscape gs di L).totalTrials = L.length :=
  rfl

/-- Projection: `competitiveRiskScore` of the aggregated landscape. -/
lemma getCompetitorLandscape_risk (gs di : String) (L : List ClinicalTrial) :
    (getCompetitorLandscape gs di L).competitiveRiskScore =
      (if 0 < L.length then
        min 1
          (((L.filter (fun x => countsAsActive x.status)).length : ℚ) /
              (L.length : ℚ) * 0.4 +
            ((L.filter (fun x => countsAsFailed x.status)).length : ℚ) /
              (L.length : ℚ) * 0.3 +
            ((L.filter (fun x =>
                decide (x.phase = "Phase 3") ||
                  decide (x.phase = "Phase 4"))).length : ℚ) /
              (L.length : ℚ) * 0.3)
      else 0) :=
  rfl

/-- Length of a filter over a list with one distinguished middle element. -/
lemma filter_length_mid {α : Type} (p : α → Bool) (pre post : List α) (x : α) :
    ((pre ++ x :: post).filter p).length =
      (pre.filter p).length + (if p x then 1 else 0) + (post.filter p).length := by
  rw [List.filter_append, List.filter_cons]
  split_ifs <;> simp <;> omega

/-- Two filters with pointwise exclusive predicates jointly keep at most the
whole list. -/
lemma filter_disjoint_length {α : Type} (p q : α → Bool) (l : List α)
    (h : ∀ x, p x = true → q x = false) :
    (l.filter p).length + (l.filter q).length ≤ l.length := by
  induction l with
  | nil => simp
  | cons a l ih =>
    rw [List.filter_cons, List.filter_cons]
    by_cases hp : p a = true
    · have hq := h a hp
      simp only [hp, if_true, hq, Bool.false_eq_true, if_false,
        List.length_cons]
      omega
    · have hp' : p a = false := by revert hp; cases p a <;> simp
      simp only [hp', Bool.false_eq_true, if_false]
      split_ifs <;> simp <;> omega

/-- Middle element kept by the filter. -/
lemma filter_length_mid_pos {α : Type} (p : α → Bool) (pre post : List α)
    (x : α) (hx : p x = true) :
    ((pre ++ x :: post).filter p).length =
      (pre.filter p).length + (post.filter p).length + 1 := by
  rw [filter_length_mid, hx]
  simp only [if_pos]
  omega

/-- Middle element dropped by the filter. -/
lemma filter_length_mid_neg {α : Type} (p : α → Bool) (pre post : List α)
    (x : α) (hx : p x = false) :
    ((pre ++ x :: post).filter p).length =
      (pre.filter p).length + (post.filter p).length := by
  rw [filter_length_mid, hx]
  simp

/-- A status counted as active is never counted as failed. -/
lemma activeNotFailed (s : TrialStatus) :
    countsAsActive s = true → countsAsFailed s = false := by
  cases s <;> decide

/-- Arithmetic core of the C10 strict-inequality argument: the weighted ratio
sum stays below 1 and strictly increases with the active count. -/
lemma riskScore_core (A F L N : ℚ) (hN : 0 < N) (hF0 : 0 ≤ F)
    (hAF : A + 1 + F ≤ N) (hL : L ≤ N) :
    (A / N) * 0.4 + (F / N) * 0.3 + (L / N) * 0.3 <
      ((A + 1) / N) * 0.4 + (F / N) * 0.3 + (L / N) * 0.3 ∧
    ((A + 1) / N) * 0.4 + (F / N) * 0.3 + (L / N) * 0.3 < 1 := by
  constructor
  · have hdiv : A / N < (A + 1) / N :=
      (div_lt_div_iff_of_pos_right hN).mpr (by linarith)
    have := mul_lt_mul_of_pos_right hdiv (show (0 : ℚ) < 0.4 by norm_num)
    linarith
  · have heq : ((A + 1) / N) * 0.4 + (F / N) * 0.3 + (L / N) * 0.3 =
        (0.4 * (A + 1) + 0.3 * F + 0.3 * L) / N := by
      ring
    rw [heq, div_lt_one hN]
    linarith

/-- C10: in `getCompetitorLandscape`, a SUSPENDED trial is counted in
`activeTrials` exactly like a RECRUITING or ACTIVE trial (the active-trial
count and the competitive risk score are unchanged when its status is replaced
by either), and relative to a status that is not counted at all (UNKNOWN) each
suspended trial increases `activeTrials` by one and strictly increases the
active-trial ratio and the `competitiveRiskScore`. -/
theorem getCompetitorLandscape_suspended_active (gs di : String)
    (pre post : List ClinicalTrial) (t : ClinicalTrial) :
    (getCompetitorLandscape gs di
        (pre ++ { t with status := .SUSPENDED } :: post)).activeTrials =
      (getCompetitorLandscape gs di
        (pre ++ { t with status := .RECRUITING } :: post)).activeTrials ∧
    (getCompetitorLandscape gs di
        (pre ++ { t with status := .SUSPENDED } :: post)).competitiveRiskScore =
      (getCompetitorLandscape gs di
        (pre ++ { t with status := .RECRUITING } :: post)).competitiveRiskScore ∧
    (getCompetitorLandscape gs di
        (pre ++ { t with status := .SUSPENDED } :: post)).activeTrials =
      (getCompetitorLandscape gs di
        (pre ++ { t with status := .ACTIVE } :: post)).activeTrials ∧
    (getCompetitorLandscape gs di
        (pre ++ { t with status := .SUSPENDED } :: post)).competitiveRiskScore =
      (getCompetitorLandscape gs di
        (pre ++ { t with status := .ACTIVE } :: post)).competitiveRiskScore ∧
    (getCompetitorLandscape gs di
        (pre ++ { t with status := .SUSPENDED } :: post)).activeTrials =
      (getCompetitorLandscape gs di
        (pre ++ { t with status := .UNKNOWN } :: post)).activeTrials + 1 ∧
    ((getCompetitorLandscape gs di
        (pre ++ { t with status := .UNKNOWN } :: post)).activeTrials : ℚ) /
      ((getCompetitorLandscape gs di
        (pre ++ { t with status := .UNKNOWN } :: post)).totalTrials : ℚ) <
      ((getCompetitorLandscape gs di
        (pre ++ { t with status := .SUSPENDED } :: post)).activeTrials : ℚ) /
      ((getCompetitorLandscape gs di
        (pre ++ { t with status := .SUSPENDED } :: post)).totalTrials : ℚ) ∧
    (getCompetitorLandscape gs di
        (pre ++ { t with status := .UNKNOWN } :: post)).competitiveRiskScore <
      (getCompetitorLandscape gs di
        (pre ++ { t with status := .SUSPENDED } :: post)).competitiveRiskScore := by
  have hS := filter_length_mid_pos (fun x : ClinicalTrial => countsAsActive x.status)
    pre post { t with status := TrialStatus.SUSPENDED } rfl
  have hR := filter_length_mid_pos (fun x : ClinicalTrial => countsAsActive x.status)
    pre post { t with status := TrialStatus.RECRUITING } rfl
  have hA := filter_length_mid_pos (fun x : ClinicalTrial => countsAsActive x.status)
    pre post { t with status := TrialStatus.ACTIVE } rfl
  have hU := filter_length_mid_neg (fun x : ClinicalTrial => countsAsActive x.status)
    pre post { t with status := TrialStatus.UNKNOWN } rfl
  have hfS := filter_length_mid_neg (fun x : ClinicalTrial => countsAsFailed x.status)
    pre post { t with status := TrialStatus.SUSPENDED } rfl
  have hfR := filter_length_mid_neg (fun x : ClinicalTrial => countsAsFailed x.status)
    pre post { t with status := TrialStatus.RECRUITING } rfl
  have hfA := filter_length_mid_neg (fun x : ClinicalTrial => countsAsFailed x.status)
    pre post { t with status := TrialStatus.ACTIVE } rfl
  have hfU := filter_length_mid_neg (fun x : ClinicalTrial => countsAsFailed x.status)
    pre post { t with status := TrialStatus.UNKNOWN } rfl
  have hlate : ∀ s : TrialStatus,
      ((pre ++ { t with status := s } :: post).filter (fun x =>
        decide (x.phase = "Phase 3") || decide (x.phase = "Phase 4"))).length =
      ((pre ++ { t with status := TrialStatus.SUSPENDED } :: post).filter (fun x =>
        decide (x.phase = "Phase 3") || decide (x.phase = "Phase 4"))).length := by
    intro s
    rw [filter_length_mid, filter_length_mid]
  have hlen : ∀ s : TrialStatus,
      (pre ++ { t with status := s } :: post).length =
        pre.length + post.length + 1 := by
    intro s
    rw [List.length_append, List.length_cons]
    omega
  refine ⟨?_, ?_, ?_, ?_, ?_, ?_, ?_⟩
  · rw [getCompetitorLandscape_activeTrials, getCompetitorLandscape_activeTrials,
      hS, hR]
  · rw [getCompetitorLandscape_risk, getCompetitorLandscape_risk, hS, hR,
      hfS, hfR, hlate TrialStatus.RECRUITING, hlen, hlen]
  · rw [getCompetitorLandscape_activeTrials, getCompetitorLandscape_activeTrials,
      hS, hA]
  · rw [getCompetitorLandscape_risk, getCompetitorLandscape_risk, hS, hA,
      hfS, hfA, hlate TrialStatus.ACTIVE, hlen, hlen]
  · rw [getCompetitorLandscape_activeTrials, getCompetitorLandscape_activeTrials,
      hS, hU]
  · rw [getCompetitorLandscape_activeTrials, getCompetitorLandscape_activeTrials,
      getCompetitorLandscape_totalTrials, getCompetitorLandscape_totalTrials,
      hS, hU, hlen, hlen]
    have hn : (0 : ℚ) < ((pre.length + post.length + 1 : ℕ) : ℚ) := by
      exact_mod_cast Nat.succ_pos _
    exact (div_lt_div_iff_of_pos_right hn).mpr
      (by exact_mod_cast Nat.lt_succ_self _)
  · rw [getCompetitorLandscape_risk, getCompetitorLandscape_risk, hS, hU,
      hfS, hfU, hlate TrialStatus.UNKNOWN, hlen, hlen]
    have hnn : 0 < pre.length + post.length + 1 := by omega
    rw [if_pos hnn, if_pos hnn]
    have hdp := filter_disjoint_length
      (fun x : ClinicalTrial => countsAsActive x.status)
      (fun x : ClinicalTrial => countsAsFailed x.status) pre
      (fun x hx => activeNotFailed _ hx)
    have hdq := filter_disjoint_length
      (fun x : ClinicalTrial => countsAsActive x.status)
      (fun x : ClinicalTrial => countsAsFailed x.status) post
      (fun x hx => activeNotFailed _ hx)
    have hlc := List.length_filter_le (fun x : ClinicalTrial =>
      decide (x.phase = "Phase 3") || decide (x.phase = "Phase 4"))
      (pre ++ { t with status := TrialStatus.SUSPENDED } :: post)
    rw [hlen] at hlc
    have hn : (0 : ℚ) < ((pre.length : ℚ) + (post.length : ℚ) + 1) := by
      positivity
    obtain ⟨h1, h2⟩ := riskScore_core
      (((pre.filter (fun x : ClinicalTrial => countsAsActive x.status)).length : ℚ) +
        ((post.filter (fun x : ClinicalTrial => countsAsActive x.status)).length : ℚ))
      (((pre.filter (fun x : ClinicalTrial => countsAsFailed x.status)).length : ℚ) +
        ((post.filter (fun x : ClinicalTrial => countsAsFailed x.status)).length : ℚ))
      ((((pre ++ { t with status := TrialStatus.SUSPENDED } :: post).filter (fun x =>
          decide (x.phase = "Phase 3") || decide (x.phase = "Phase 4"))).length : ℚ))
      ((pre.length : ℚ) + (post.length : ℚ) + 1) hn (by positivity)
      (by push_cast; exact_mod_cast (by omega :
        (pre.filter (fun x : ClinicalTrial => countsAsActive x.status)).length +
          (post.filter (fun x : ClinicalTrial => countsAsActive x.status)).length + 1 +
          ((pre.filter (fun x : ClinicalTrial => countsAsFailed x.status)).length +
           (post.filter (fun x : ClinicalTrial => countsAsFailed x.status)).length) ≤
          pre.length + post.length + 1))
      (by exact_mod_cast hlc)
    push_cast
    rw [min_eq_right (by linarith), min_eq_right (by linarith)]
    linarith

/-- Model of `jsRound` is monotone. -/
lemma jsRound_mono {q r : ℚ} (h : q ≤ r) : jsRound q ≤ jsRound r :=
  Int.floor_le_floor (by linarith)

/-- The progress-write trace of `runTriage`, unfolded. -/
lemma runTriage_progressWrites (genes : List String)
    (outcomes : List (Option GeneResult)) :
    (runTriage genes outcomes).progressWrites =
      0 :: (((List.range genes.length).map
        (fun i : ℕ => jsRound ((i : ℚ) / (genes.length : ℚ) * 100))) ++ [100]) :=
  rfl

/-- The last progress value written by `runTriage` is always 100. -/
lemma runTriage_progress_getLast (genes : List String)
    (outcomes : List (Option GeneResult)) :
    (runTriage genes outcomes).progressWrites.getLast? = some 100 := by
  rw [runTriage_progressWrites, ← List.cons_append, List.getLast?_concat]

/-- Counting the `none` entries partitions the outcome list. -/
lemma filterMap_id_length {α : Type} (l : List (Option α)) :
    (l.filterMap id).length + l.countP (fun o => o.isNone) = l.length := by
  induction l with
  | nil => simp
  | cons o l ih =>
    cases o <;> simp [List.filterMap_cons, List.countP_cons] <;> omega

/-- C6: for a batch of `N` requested genes of which `k` are unresolvable (or
otherwise fail), with `0 < k < N` and persistence succeeding, every failed
gene produces no report, the summary's `totalTargets` equals `N − k` (hence
`≤ N − k`), and the job ends COMPLETED with a final progress write of 100. -/
theorem runTriage_partial_failure (genes : List String)
    (outcomes : List (Option GeneResult))
    (hlen : outcomes.length = genes.length)
    (hk0 : 0 < outcomes.countP (fun o => o.isNone))
    (hkN : outcomes.countP (fun o => o.isNone) < genes.length) :
    (runTriage genes outcomes).results.length =
      genes.length - outcomes.countP (fun o => o.isNone) ∧
    (runTriage genes outcomes).summary.totalTargets ≤
      genes.length - outcomes.countP (fun o => o.isNone) ∧
    (runTriage genes outcomes).finalStatus = .COMPLETED ∧
    (runTriage genes outcomes).progressWrites.getLast? = some 100 := by
  have hres : (runTriage genes outcomes).results = outcomes.filterMap id := rfl
  have htt : (runTriage genes outcomes).summary.totalTargets =
      (outcomes.filterMap id).length := rfl
  have hcount := filterMap_id_length outcomes
  refine ⟨?_, ?_, rfl, runTriage_progress_getLast genes outcomes⟩
  · rw [hres]; omega
  · rw [htt]; omega

/-- Witness for C6: a two-gene batch with one unresolvable gene. -/
theorem runTriage_partial_failure_witness :
    (runTriage ["BRAF", "XXXX"]
      [some ⟨"BRAF", .GO, 0.7⟩, none]).results.length = 2 - 1 ∧
    (runTriage ["BRAF", "XXXX"]
      [some ⟨"BRAF", .GO, 0.7⟩, none]).summary.totalTargets ≤ 2 - 1 ∧
    (runTriage ["BRAF", "XXXX"]
      [some ⟨"BRAF", .GO, 0.7⟩, none]).finalStatus = .COMPLETED ∧
    (runTriage ["BRAF", "XXXX"]
      [some ⟨"BRAF", .GO, 0.7⟩, none]).progressWrites.getLast? = some 100 :=
  runTriage_partial_failure ["BRAF", "XXXX"]
    [some ⟨"BRAF", .GO, 0.7⟩, none] (by simp) (by simp) (by simp)

/-- C7 counterexample: with a 3-gene batch, the progress written before gene
i = 2 is `Math.round(2/3·100) = 67`, not `floor(2/3·100) = 66` as the claim
states. -/
theorem runTriage_progress_counterexample :
    (runTriage ["BRAF", "EGFR", "KRAS"]
      [none, none, none]).progressWrites[3]? = some 67 ∧
    (⌊(2 : ℚ) / 3 * 100⌋ : ℤ) = 66 := by
  constructor
  · rw [runTriage_progressWrites]
    norm_num [List.range_succ, jsRound]
  · norm_num

/-- C7 (amended): during `runTriage` over `N` genes the job's progress is
written as 0 first, then before processing gene `i` (0-based) as
`Math.round(i / N * 100)` — round half up, not floor — then as 100 at
completion; the sequence of progress writes is monotonically
non-decreasing. -/
theorem runTriage_progress_spec (genes : List String)
    (outcomes : List (Option GeneResult)) :
    (runTriage genes outcomes).progressWrites[0]? = some 0 ∧
    (∀ i, i < genes.length →
      (runTriage genes outcomes).progressWrites[i + 1]? =
        some (jsRound ((i : ℚ) / (genes.length : ℚ) * 100))) ∧
    (runTriage genes outcomes).progressWrites.getLast? = some 100 ∧
    List.Sorted (· ≤ ·) (runTriage genes outcomes).progressWrites := by
  refine ⟨by rw [runTriage_progressWrites]; exact List.getElem?_cons_zero, ?_,
    runTriage_progress_getLast genes outcomes, ?_⟩
  · intro i hi
    rw [runTriage_progressWrites, List.getElem?_cons_succ,
      List.getElem?_append, if_pos (by simpa using hi),
      List.getElem?_map, List.getElem?_range hi]
    rfl
  · rw [runTriage_progressWrites, List.sorted_cons]
    have hround0 : jsRound 0 = 0 := by
      norm_num [jsRound]
    have hround100 : jsRound 100 = 100 := by
      norm_num [jsRound]
    have hmem_le100 : ∀ b ∈ (List.range genes.length).map
        (fun i : ℕ => jsRound ((i : ℚ) / (genes.length : ℚ) * 100)), b ≤ 100 := by
      intro b hb
      obtain ⟨i, hi, rfl⟩ := List.mem_map.mp hb
      have hiN : i < genes.length := List.mem_range.mp hi
      have harg : (i : ℚ) / (genes.length : ℚ) * 100 ≤ 100 := by
        rcases Nat.eq_zero_or_pos genes.length with hN | hN
        · simp [hN]
        · have hNq : (0 : ℚ) < (genes.length : ℚ) := by exact_mod_cast hN
          have hiq : (i : ℚ) ≤ (genes.length : ℚ) := by exact_mod_cast hiN.le
          rw [div_mul_eq_mul_div, div_le_iff hNq]
          nlinarith
      calc jsRound ((i : ℚ) / (genes.length : ℚ) * 100) ≤ jsRound 100 :=
            jsRound_mono harg
        _ = 100 := hround100
    constructor
    · intro b hb
      rcases List.mem_append.mp hb with hb | hb
      · obtain ⟨i, hi, rfl⟩ := List.mem_map.mp hb
        have harg : (0 : ℚ) ≤ (i : ℚ) / (genes.length : ℚ) * 100 :=
          mul_nonneg (div_nonneg (by positivity) (by positivity)) (by norm_num)
        have := jsRound_mono harg
        omega
      · simp only [List.mem_singleton] at hb
        omega
    · refine List.pairwise_append.mpr ⟨?_, by simp, ?_⟩
      · refine List.pairwise_map.mpr ?_
        refine (List.pairwise_lt_range genes.length).imp ?_
        intro a b hab
        apply jsRound_mono
        rcases Nat.eq_zero_or_pos genes.length with hN | hN
        · simp [hN]
        · have hNq : (0 : ℚ) < (genes.length : ℚ) := by exact_mod_cast hN
          have habq : (a : ℚ) ≤ (b : ℚ) := by exact_mod_cast hab.le
          have := (div_le_div_iff_of_pos_right hNq).mpr habq
          nlinarith
      · intro a ha b hb
        simp only [List.mem_singleton] at hb
        subst hb
        exact hmem_le100 a ha

/-- Witness for C7's amended theorem on a concrete 3-gene batch. -/
theorem runTriage_progress_spec_witness :
    (runTriage ["BRAF", "EGFR", "KRAS"] [none, none, none]).progressWrites[3]? =
      some (jsRound ((2 : ℚ) / (3 : ℚ) * 100)) :=
  (runTriage_progress_spec ["BRAF", "EGFR", "KRAS"] [none, none, none]).2.1 2
    (by norm_num)

/-- Investigation never lowers the severity order. -/
lemma applyInvestigation_severity_mono (s : SafetySignal)
    (ev : List SafetyEvidence) :
    SEVERITY_ORDER s.severity ≤
      SEVERITY_ORDER (applyInvestigation s ev).severity := by
  simp only [applyInvestigation]
  split_ifs with h1 h2
  · have hlt := h2.2
    simp only at hlt ⊢
    simp only [SEVERITY_ORDER] at hlt ⊢
    omega
  · exact le_refl _
  · exact le_refl _

/-- The escalation rule: strong regulatory evidence raises a sub-HIGH severity
to exactly HIGH. -/
lemma applyInvestigation_escalates (s : SafetySignal) (ev : List SafetyEvidence)
    (hreg : hasStrongRegulatoryEvidence ev = true)
    (hlow : SEVERITY_ORDER s.severity < SEVERITY_ORDER SafetySeverity.HIGH) :
    (applyInvestigation s ev).severity = SafetySeverity.HIGH := by
  have hncrit : s.severity ≠ SafetySeverity.CRITICAL := by
    intro hc
    rw [hc] at hlow
    simp [SEVERITY_ORDER] at hlow
  simp only [applyInvestigation, hreg]
  rw [if_pos trivial, if_pos (⟨hncrit, hlow⟩ :
    s.severity ≠ SafetySeverity.CRITICAL ∧
      SEVERITY_ORDER s.severity < SEVERITY_ORDER SafetySeverity.HIGH)]

/-- C4: in the profile returned by `getSafetyProfile`, every signal is either
an untouched initial signal or the investigated version of an initial signal,
and in both cases its severity is at least the initial severity (investigation
never downgrades); every initial signal selected for investigation appears in
the profile as its investigated version; and whenever the newly gathered
evidence contains a REGULATORY item with confidence above 0.9 and the signal's
severity is below HIGH, the investigated severity is exactly HIGH. -/
theorem getSafetyProfile_severity_spec (ensemblId : String)
    (initialSignals : List SafetySignal)
    (evidenceFor : SafetySignal → List SafetyEvidence) :
    (∀ t ∈ (getSafetyProfile ensemblId initialSignals evidenceFor).signals,
      ∃ s ∈ initialSignals,
        (t = s ∨ t = applyInvestigation s (evidenceFor s)) ∧
        SEVERITY_ORDER s.severity ≤ SEVERITY_ORDER t.severity) ∧
    (∀ s ∈ initialSignals, needsInvestigation s = true →
      applyInvestigation s (evidenceFor s) ∈
        (getSafetyProfile ensemblId initialSignals evidenceFor).signals) ∧
    (∀ s ev, hasStrongRegulatoryEvidence ev = true →
      SEVERITY_ORDER s.severity < SEVERITY_ORDER SafetySeverity.HIGH →
      (applyInvestigation s ev).severity = SafetySeverity.HIGH) := by
  have hsignals : (getSafetyProfile ensemblId initialSignals evidenceFor).signals =
      (initialSignals.filter needsInvestigation).map
        (fun s => applyInvestigation s (evidenceFor s)) ++
      initialSignals.filter (fun s =>
        !(((initialSignals.filter needsInvestigation).map signalKey).contains
          (signalKey s))) := rfl
  refine ⟨?_, ?_, fun s ev hreg hlow => applyInvestigation_escalates s ev hreg hlow⟩
  · intro t ht
    rw [hsignals] at ht
    rcases List.mem_append.mp ht with ht | ht
    · obtain ⟨s, hs, rfl⟩ := List.mem_map.mp ht
      exact ⟨s, (List.mem_filter.mp hs).1, Or.inr rfl,
        applyInvestigation_severity_mono s (evidenceFor s)⟩
    · exact ⟨t, (List.mem_filter.mp ht).1, Or.inl rfl, le_refl _⟩
  · intro s hs hneed
    rw [hsignals]
    exact List.mem_append_left _
      (List.mem_map.mpr ⟨s, List.mem_filter.mpr ⟨hs, hneed⟩, rfl⟩)

/-- Witness for C4: a MODERATE liver signal with one high-confidence regulatory
evidence item is escalated to exactly HIGH. -/
theorem getSafetyProfile_severity_spec_witness :
    (applyInvestigation
      ⟨"hepatotoxicity", some "liver", SafetySeverity.MODERATE, "tox", [], none⟩
      [⟨SafetyEvidenceType.REGULATORY, "ChEMBL", "withdrawn drug", none,
        some 0.95⟩]).severity = SafetySeverity.HIGH :=
  (getSafetyProfile_severity_spec "ENSG00000000001"
      [⟨"hepatotoxicity", some "liver", SafetySeverity.MODERATE, "tox", [], none⟩]
      (fun _ => [⟨SafetyEvidenceType.REGULATORY, "ChEMBL", "withdrawn drug",
        none, some 0.95⟩])).2.2
    ⟨"hepatotoxicity", some "liver", SafetySeverity.MODERATE, "tox", [], none⟩
    [⟨SafetyEvidenceType.REGULATORY, "ChEMBL", "withdrawn drug", none,
      some 0.95⟩]
    (by norm_num [hasStrongRegulatoryEvidence])
    (by decide)

/-- Members of a list whose image under `f` is duplicate-free are determined
by their image. -/
lemma eq_of_nodup_map_mem {α β : Type} {f : α → β} {l : List α}
    (h : (l.map f).Nodup) {x y : α} (hx : x ∈ l) (hy : y ∈ l)
    (hf : f x = f y) : x = y := by
  induction l with
  | nil => cases hx
  | cons a tl ih =>
    rw [List.map_cons, List.nodup_cons] at h
    rcases List.mem_cons.mp hx with rfl | hx' <;>
      rcases List.mem_cons.mp hy with rfl | hy'
    · rfl
    · exact absurd (List.mem_map.mpr ⟨y, hy', hf.symm⟩) h.1
    · exact absurd (List.mem_map.mpr ⟨x, hx', hf⟩) h.1
    · exact ih h.2 hx' hy'

/-- C9 counterexample: a NO_GO report with composite 0.9 is excluded from
`topTargets` while a GO report with composite 0.5 is included, so topTargets is
not the top-5 by composite score regardless of verdict. -/
theorem mkReportSummary_topTargets_counterexample :
    (runTriage ["A", "B"] [some ⟨"A", Verdict.NO_GO, 0.9⟩,
      some ⟨"B", Verdict.GO, 0.5⟩]).summary.topTargets = ["B"] ∧
    (0.5 : ℚ) < 0.9 ∧
    "A" ∉ (runTriage ["A", "B"] [some ⟨"A", Verdict.NO_GO, 0.9⟩,
      some ⟨"B", Verdict.GO, 0.5⟩]).summary.topTargets ∧
    "B" ∈ (runTriage ["A", "B"] [some ⟨"A", Verdict.NO_GO, 0.9⟩,
      some ⟨"B", Verdict.GO, 0.5⟩]).summary.topTargets := by
  have h : (runTriage ["A", "B"] [some ⟨"A", Verdict.NO_GO, 0.9⟩,
      some ⟨"B", Verdict.GO, 0.5⟩]).summary.topTargets = ["B"] := by
    show ((([(⟨"A", Verdict.NO_GO, 0.9⟩ : GeneResult),
        ⟨"B", Verdict.GO, 0.5⟩].filter
        (fun r : GeneResult => decide (r.verdict = .GO) ||
          decide (r.verdict = .GO_WITH_CAUTION))).mergeSort
        (fun a b => decide (b.compositeScore ≤ a.compositeScore))).take 5).map
        (fun r => r.symbol) = ["B"]
    have hfil : [(⟨"A", Verdict.NO_GO, 0.9⟩ : GeneResult),
        ⟨"B", Verdict.GO, 0.5⟩].filter
        (fun r : GeneResult => decide (r.verdict = .GO) ||
          decide (r.verdict = .GO_WITH_CAUTION)) = [⟨"B", Verdict.GO, 0.5⟩] := by
      rfl
    rw [hfil, List.mergeSort_singleton]
    simp
  refine ⟨h, by norm_num, ?_, ?_⟩ <;> rw [h] <;> simp

/-- C9 (amended): `topTargets` is the top-5 ranking by composite score of only
the successfully analyzed targets whose verdict is GO or GO_WITH_CAUTION:
targets with other verdicts never appear regardless of composite score, and
among GO/GO_WITH_CAUTION results (with distinct symbols) a strictly
higher-scoring result appears whenever a lower-scoring one does. -/
theorem mkReportSummary_topTargets_spec (results : List GeneResult)
    (hnd : (results.map (fun r => r.symbol)).Nodup) :
    (∀ r ∈ results,
      (r.verdict = Verdict.INVESTIGATE_FURTHER ∨ r.verdict = Verdict.NO_GO) →
      r.symbol ∉ (mkReportSummary results).topTargets) ∧
    (∀ r1 ∈ results, ∀ r2 ∈ results,
      (r1.verdict = Verdict.GO ∨ r1.verdict = Verdict.GO_WITH_CAUTION) →
      (r2.verdict = Verdict.GO ∨ r2.verdict = Verdict.GO_WITH_CAUTION) →
      r2.compositeScore < r1.compositeScore →
      r2.symbol ∈ (mkReportSummary results).topTargets →
      r1.symbol ∈ (mkReportSummary results).topTargets) := by
  have htop : (mkReportSummary results).topTargets =
      (((results.filter (fun r : GeneResult => decide (r.verdict = .GO) ||
          decide (r.verdict = .GO_WITH_CAUTION))).mergeSort
        (fun a b => decide (b.compositeScore ≤ a.compositeScore))).take 5).map
        (fun r => r.symbol) := rfl
  have hperm := List.mergeSort_perm
    (results.filter (fun r : GeneResult => decide (r.verdict = .GO) ||
      decide (r.verdict = .GO_WITH_CAUTION)))
    (fun a b => decide (b.compositeScore ≤ a.compositeScore))
  have hsorted : List.Pairwise
      (fun a b : GeneResult =>
        (fun a b : GeneResult =>
          decide (b.compositeScore ≤ a.compositeScore)) a b = true)
      ((results.filter (fun r : GeneResult => decide (r.verdict = .GO) ||
          decide (r.verdict = .GO_WITH_CAUTION))).mergeSort
        (fun a b => decide (b.compositeScore ≤ a.compositeScore))) := by
    refine List.sorted_mergeSort ?_ ?_ _
    · intro a b c hab hbc
      simp only [decide_eq_true_eq] at hab hbc ⊢
      exact le_trans hbc hab
    · intro a b
      simp only [Bool.or_eq_true, decide_eq_true_eq]
      exact le_total b.compositeScore a.compositeScore
  constructor
  · intro r hr hv hmem
    simp only [htop] at hmem
    obtain ⟨r', hr', hsym⟩ := List.mem_map.mp hmem
    have hr'S := List.mem_of_mem_take hr'
    have hr'F := hperm.mem_iff.mp hr'S
    have hr'res : r' ∈ results := (List.mem_filter.mp hr'F).1
    have heq : r' = r := eq_of_nodup_map_mem hnd hr'res hr hsym
    subst heq
    have hpr := (List.mem_filter.mp hr'F).2
    rcases hv with hv | hv <;> simp [hv] at hpr
  · intro r1 h1 r2 h2 hv1 hv2 hlt hmem
    simp only [htop] at hmem ⊢
    obtain ⟨e, he, hesym⟩ := List.mem_map.mp hmem
    have heS := List.mem_of_mem_take he
    have heF := hperm.mem_iff.mp heS
    have heres : e ∈ results := (List.mem_filter.mp heF).1
    have heq : e = r2 := eq_of_nodup_map_mem hnd heres h2 hesym
    subst heq
    obtain ⟨j, hj, hjget⟩ := List.mem_take_iff_getElem.mp he
    have hr1F : r1 ∈ results.filter (fun r : GeneResult =>
        decide (r.verdict = .GO) || decide (r.verdict = .GO_WITH_CAUTION)) :=
      List.mem_filter.mpr ⟨h1, by rcases hv1 with h | h <;> simp [h]⟩
    have hr1S := hperm.mem_iff.mpr hr1F
    obtain ⟨i, hilen, higet⟩ := List.getElem_of_mem hr1S
    have hjlen : j < (_ : List GeneResult).length :=
      lt_of_lt_of_le hj (min_le_right _ _)
    have hjElem : _ = e := hjget
    have hij : i ≠ j := by
      intro hij
      subst hij
      have heq1 : r1 = e := higet.symm.trans hjget
      rw [heq1] at hlt
      exact lt_irrefl _ hlt
    have hi5 : i < 5 := by
      by_contra hge
      have hj5 : j < 5 := lt_of_lt_of_le hj (min_le_left _ _)
      have hji : j < i := by omega
      have hrel := List.Sorted.rel_get_of_lt hsorted
        (a := ⟨j, hjlen⟩) (b := ⟨i, hilen⟩) (by simpa using hji)
      simp only [List.get_eq_getElem, decide_eq_true_eq] at hrel
      rw [show (_ : List GeneResult)[i] = r1 from higet,
        show (_ : List GeneResult)[j] = e from hjget] at hrel
      exact absurd hlt (not_lt.mpr hrel)
    refine List.mem_map.mpr ⟨r1, ?_, rfl⟩
    exact List.mem_take_iff_getElem.mpr ⟨i, lt_min_iff.mpr ⟨hi5, hilen⟩, higet⟩

/-- Witness for C9's amended theorem on two concrete GO/GO_WITH_CAUTION
results. -/
theorem mkReportSummary_topTargets_spec_witness :
    "A" ∈ (mkReportSummary [⟨"A", Verdict.GO, 0.9⟩,
      ⟨"B", Verdict.GO_WITH_CAUTION, 0.5⟩]).topTargets := by
  have hsorted : List.Pairwise
      (fun a b : GeneResult =>
        (fun a b : GeneResult =>
          decide (b.compositeScore ≤ a.compositeScore)) a b = true)
      [⟨"A", Verdict.GO, 0.9⟩, ⟨"B", Verdict.GO_WITH_CAUTION, 0.5⟩] := by
    refine List.Pairwise.cons ?_ (List.Pairwise.cons
      (fun b hb => absurd hb (List.not_mem_nil b)) List.Pairwise.nil)
    intro b hb
    simp only [List.mem_singleton] at hb
    subst hb
    simp only [decide_eq_true_eq]
    norm_num
  have htop : (mkReportSummary [(⟨"A", Verdict.GO, 0.9⟩ : GeneResult),
      ⟨"B", Verdict.GO_WITH_CAUTION, 0.5⟩]).topTargets = ["A", "B"] := by
    show ((([(⟨"A", Verdict.GO, 0.9⟩ : GeneResult),
        ⟨"B", Verdict.GO_WITH_CAUTION, 0.5⟩].filter
        (fun r : GeneResult => decide (r.verdict = .GO) ||
          decide (r.verdict = .GO_WITH_CAUTION))).mergeSort
        (fun a b => decide (b.compositeScore ≤ a.compositeScore))).take 5).map
        (fun r => r.symbol) = ["A", "B"]
    have hfil : [(⟨"A", Verdict.GO, 0.9⟩ : GeneResult),
        ⟨"B", Verdict.GO_WITH_CAUTION, 0.5⟩].filter
        (fun r : GeneResult => decide (r.verdict = .GO) ||
          decide (r.verdict = .GO_WITH_CAUTION)) =
        [⟨"A", Verdict.GO, 0.9⟩, ⟨"B", Verdict.GO_WITH_CAUTION, 0.5⟩] := by
      simp [List.filter_cons]
    rw [hfil, List.mergeSort_of_sorted hsorted]
    simp
  exact (mkReportSummary_topTargets_spec
      [⟨"A", Verdict.GO, 0.9⟩, ⟨"B", Verdict.GO_WITH_CAUTION, 0.5⟩]
      (by simp)).2
    ⟨"A", Verdict.GO, 0.9⟩ (by simp)
    ⟨"B", Verdict.GO_WITH_CAUTION, 0.5⟩ (by simp)
    (Or.inl rfl) (Or.inr rfl) (by norm_num)
    (by rw [htop]; simp)

end OtpAgent
